import Mathlib

/-!
Verification of the financial-advisory chatbot backend (`src/app`): a shallow
embedding in Lean 4 of the LLM provider selector with its mock fallback
(`app/services/llm_service.py`), the chat endpoint and repository
(`app/api/chat.py`, `app/repository/chat_repository.py`), the financial
repository (`app/repository/financial_repository.py`) and the meta-prompt
builder (`app/models/meta_prompt_generator.py`,
`app/utils/meta_prompt_templates.py`).

Python floats are embedded as exact rationals (ℚ), document-store state as
explicit record lists passed through each operation, and Python exceptions as
`Except Unit`.  Fresh ObjectIds and the current time are passed as explicit
arguments.
-/

/-! ## String helpers

Executable character-list versions of the Python string operations the
services use: `str.lower()` and the `in` substring test. -/

/-- Whether `pat` is an initial run of `s` (character-list version). -/
def chars_pre : List Char → List Char → Bool
  | [], _ => true
  | _ :: _, [] => false
  | a :: pat, b :: s => a == b && chars_pre pat s

/-- Whether `pat` occurs contiguously somewhere in `s`: Python's `pat in s`. -/
def chars_has (pat : List Char) : List Char → Bool
  | [] => pat.isEmpty
  | b :: s => chars_pre pat (b :: s) || chars_has pat s

/-- Python `pat in s` on strings. -/
def str_has (s pat : String) : Bool :=
  chars_has pat.data s.data

/-- Python `s.lower()` (ASCII case, which is all the service's keywords use). -/
def str_lower (s : String) : String :=
  String.mk (s.data.map Char.toLower)

/-! ## LLM service (`app/services/llm_service.py`)

`LLMService.__init__` probes the configured API keys in priority order
(Google, Mistral, HuggingFace, OpenAI) and otherwise selects the `"mock"`
provider.  `generate_response` is decorated with tenacity's
`@retry(stop=stop_after_attempt(3), wait=wait_exponential(multiplier=1, min=2,
max=10))`; its body dispatches on the provider and catches every exception,
falling back to `_generate_mock_response`. -/

/-- One chat message: a `{"role": ..., "content": ...}` dictionary. -/
structure ChatMsg where
  role : String
  content : String
deriving DecidableEq

/-- The keyword responses of `_generate_mock_response` (lines 302-326),
in source order, plus the empty-messages greeting and the default. -/
def mock_greeting : String :=
  "I'm here to help with your financial questions!"

def mock_invest_response : String :=
  "Based on general investment principles, it's usually a good idea to diversify your portfolio. Consider a mix of stocks, bonds, and other assets based on your risk tolerance and time horizon."

def mock_save_response : String :=
  "Saving money is a great financial habit. Consider setting up an emergency fund with 3-6 months of expenses, and automate your savings by setting up regular transfers to a savings account."

def mock_debt_response : String :=
  "When managing debt, it's often best to prioritize high-interest debt first while making minimum payments on other debts. Creating a repayment plan can help you stay on track."

def mock_retire_response : String :=
  "Retirement planning involves determining how much you need to save, choosing appropriate investment vehicles like 401(k)s or IRAs, and considering your desired lifestyle in retirement."

def mock_budget_response : String :=
  "Creating a budget helps you track income and expenses. The 50/30/20 rule suggests allocating 50% to needs, 30% to wants, and 20% to savings and debt repayment."

def mock_default_response : String :=
  "As a financial advisor, I can help with questions about investing, saving, debt management, retirement planning, budgeting, and other financial topics. How can I assist you today?"

/-- Every string `_generate_mock_response` can return. -/
def mock_response_table : List String :=
  [mock_greeting, mock_invest_response, mock_save_response, mock_debt_response,
   mock_retire_response, mock_budget_response, mock_default_response]

/-- `LLMService._generate_mock_response` (lines 302-326): keyword match on the
lower-cased content of the last message; a fixed greeting when the list is
empty. -/
def generate_mock_response (messages : List ChatMsg) : String :=
  match messages.getLast? with
  | none => mock_greeting
  | some m =>
    let last_message := str_lower m.content
    if str_has last_message "invest" || str_has last_message "investing" then
      mock_invest_response
    else if str_has last_message "save" || str_has last_message "saving" then
      mock_save_response
    else if str_has last_message "debt" || str_has last_message "loan" then
      mock_debt_response
    else if str_has last_message "retire" || str_has last_message "retirement" then
      mock_retire_response
    else if str_has last_message "budget" then
      mock_budget_response
    else
      mock_default_response

/-- The API-key slice of `app/config.py`'s settings that `LLMService.__init__`
reads (a missing environment variable is `none`). -/
structure LLMSettings where
  google_api_key : Option String
  mistral_api_key : Option String
  huggingface_token : Option String
  openai_api_key : Option String

/-- Python `if key and key != placeholder`: `None` and `""` are falsy, and the
sample placeholder value does not count as configured. -/
def key_configured (key : Option String) (placeholder : String) : Bool :=
  match key with
  | none => false
  | some k => k != "" && k != placeholder

/-- The provider-probing `if/elif` chain of `LLMService.__init__`
(lines 26-54): Google, then Mistral, then HuggingFace, then OpenAI, else
`"mock"`. -/
def select_provider (s : LLMSettings) : String :=
  if key_configured s.google_api_key "your-google-api-key" then "google"
  else if key_configured s.mistral_api_key "your-mistral-api-key" then "mistral"
  else if key_configured s.huggingface_token "your-huggingface-token" then "huggingface"
  else if key_configured s.openai_api_key "your-openai-api-key" then "openai"
  else "mock"

/-- The providers whose branch of `generate_response` performs a live HTTP
call (lines 83-90). -/
def live_providers : List String :=
  ["openai", "huggingface", "mistral", "google"]

/-- What one live provider HTTP call does on a given attempt: return some
text, or raise (timeout, HTTP error, bad payload, ...). -/
inductive ApiOutcome
  | ok (text : String)
  | raised
deriving DecidableEq

/-- One execution of the body of `generate_response` (lines 64-105), given the
outcome of the live call on this attempt.  Returns the result and the number
of live HTTP calls made (0 or 1).  The body catches every exception from the
dispatch (line 96) and, since the provider is not `"mock"` on that path, falls
back to `_generate_mock_response` (lines 100-102); an unsupported provider
name also falls back (lines 91-94).  The body itself therefore never raises,
which is why the result component is always `Except.ok`. -/
def generate_response_body (provider : String) (messages : List ChatMsg)
    (outcome : ApiOutcome) : Except Unit String × Nat :=
  if provider = "mock" then
    (Except.ok (generate_mock_response messages), 0)
  else if provider ∈ live_providers then
    match outcome with
    | ApiOutcome.ok text => (Except.ok text, 1)
    | ApiOutcome.raised => (Except.ok (generate_mock_response messages), 1)
  else
    (Except.ok (generate_mock_response messages), 0)

/-- `stop=stop_after_attempt(3)` of the tenacity decorator on
`generate_response` (line 63). -/
def retry_stop_attempts : Nat := 3

/-- `wait=wait_exponential(multiplier=1, min=2, max=10)` of the decorator:
the backoff bounds in seconds. -/
def retry_wait_min_seconds : Nat := 2

def retry_wait_max_seconds : Nat := 10

/-- tenacity's retry loop: run the wrapped body; when it raises, re-invoke it,
up to `fuel` attempts in total, re-raising after the last.  `attempt` numbers
the attempts from 0 and `calls` accumulates the live HTTP calls made. -/
def run_with_retry (body : Nat → Except Unit String × Nat) :
    Nat → Nat → Nat → Except Unit String × Nat
  | _, 0, calls => (Except.error (), calls)
  | attempt, fuel + 1, calls =>
    match body attempt with
    | (Except.ok s, c) => (Except.ok s, calls + c)
    | (Except.error e, c) =>
      if fuel = 0 then (Except.error e, calls + c)
      else run_with_retry body (attempt + 1) fuel (calls + c)

/-- `LLMService.generate_response` as called (the decorated function): the
retry wrapper around the body, with `api` giving each attempt's live-call
outcome.  Result: what the call returns (or the exception it re-raises), and
how many live HTTP calls were made in total. -/
def generate_response (provider : String) (messages : List ChatMsg)
    (api : Nat → ApiOutcome) : Except Unit String × Nat :=
  run_with_retry (fun attempt => generate_response_body provider messages (api attempt))
    0 retry_stop_attempts 0

/-! ## ObjectId validity (`bson.ObjectId.is_valid`)

A string is a valid ObjectId exactly when it is 24 hexadecimal characters;
the repositories check this before every lookup by id. -/

def is_hex_char (c : Char) : Bool :=
  ('0' ≤ c && c ≤ '9') || ('a' ≤ c && c ≤ 'f') || ('A' ≤ c && c ≤ 'F')

def object_id_valid (s : String) : Bool :=
  s.length == 24 && s.data.all is_hex_char

/-! ## Chat data model (`app/models/chat.py`) and repository
(`app/repository/chat_repository.py`)

The document store is embedded as explicit lists of records; `created_at` /
`updated_at` timestamps are naturals passed in as `now`, and the `_id` values
MongoDB's driver would mint are passed in as fresh-id arguments. -/

/-- `MessageRole` (chat.py lines 9-13): the only values pydantic accepts in a
`ChatMessageCreate` request body. -/
inductive MessageRole
  | user
  | assistant
  | system
deriving DecidableEq

def MessageRole.is_assistant : MessageRole → Bool
  | MessageRole.assistant => true
  | _ => false

/-- A `conversations` document (fields the embedded operations touch). -/
structure Conversation where
  id : String
  user_id : String
  title : String
  updated_at : Nat
  is_active : Bool
deriving DecidableEq

/-- A `chat_messages` document. -/
structure ChatMessage where
  id : String
  conversation_id : String
  role : MessageRole
  content : String
  created_at : Nat
deriving DecidableEq

/-- The `ChatMessageCreate` request model (chat.py lines 31-36): the client
chooses the conversation, the role and the content. -/
structure ChatMessageCreate where
  conversation_id : String
  role : MessageRole
  content : String
deriving DecidableEq

/-- The chat slice of the document store. -/
structure ChatDb where
  conversations : List Conversation
  chat_messages : List ChatMessage
deriving DecidableEq

/-- `ChatRepository.get_conversation` (lines 43-51): `None` for an invalid
ObjectId, else `find_one` on `_id`. -/
def get_conversation (db : ChatDb) (conversation_id : String) : Option Conversation :=
  if !(object_id_valid conversation_id) then none
  else db.conversations.find? (fun c => c.id == conversation_id)

/-- `ChatRepository.get_message` (lines 129-137). -/
def get_message (db : ChatDb) (message_id : String) : Option ChatMessage :=
  if !(object_id_valid message_id) then none
  else db.chat_messages.find? (fun m => m.id == message_id)

/-- `ChatRepository.create_message` (lines 107-127): build the message with a
fresh `_id` and `created_at = now`, touch the conversation's `updated_at` when
the conversation id is a valid ObjectId, and insert the message. -/
def create_message (db : ChatDb) (fresh_id : String) (now : Nat)
    (data : ChatMessageCreate) : ChatDb × ChatMessage :=
  let message : ChatMessage :=
    { id := fresh_id, conversation_id := data.conversation_id,
      role := data.role, content := data.content, created_at := now }
  let conversations :=
    if object_id_valid data.conversation_id then
      db.conversations.map (fun c =>
        if c.id == data.conversation_id then { c with updated_at := now } else c)
    else db.conversations
  ({ conversations := conversations,
     chat_messages := db.chat_messages ++ [message] }, message)

/-- The message list of one conversation, as `get_conversation_messages`
filters it. -/
def conversation_messages (db : ChatDb) (conversation_id : String) : List ChatMessage :=
  db.chat_messages.filter (fun m => m.conversation_id == conversation_id)

/-- How many assistant-role messages a conversation holds. -/
def assistant_message_count (db : ChatDb) (conversation_id : String) : Nat :=
  (db.chat_messages.filter (fun m =>
    m.conversation_id == conversation_id && m.role.is_assistant)).length

/-- The HTTP error responses the embedded endpoints raise. -/
inductive ApiError
  | not_found
  | forbidden
deriving DecidableEq

/-- The status code FastAPI sends for each `HTTPException` of the embedded
endpoints. -/
def ApiError.status_code : ApiError → Nat
  | ApiError.not_found => 404
  | ApiError.forbidden => 403

/-- `GET /conversations/{id}` (chat.py lines 43-66): 404 when the lookup finds
nothing, 403 when the caller does not own the conversation. -/
def get_conversation_endpoint (db : ChatDb) (current_user_id : String)
    (conversation_id : String) : Except ApiError Conversation :=
  match get_conversation db conversation_id with
  | none => Except.error ApiError.not_found
  | some conversation =>
    if conversation.user_id ≠ current_user_id then Except.error ApiError.forbidden
    else Except.ok conversation

/-- `POST /chat` (`send_message`, chat.py lines 155-214): fetch the
conversation (404 when missing), check ownership (403), persist the inbound
message verbatim, call the LLM, persist the assistant reply, and return it
with the updated store.

`llm_response` is what `generate_llm_response` returns: that function wraps
the whole provider pipeline in its own `try/except` and always returns a
string (the provider text, the mock fallback, or its apology line), so the
handler's `except` branch is not reached on the LLM path and one parameter
covers the success and the degraded-fallback cases alike.  The repository
calls are total over the embedded in-memory store. -/
def send_message (db : ChatDb) (current_user_id : String)
    (message : ChatMessageCreate) (llm_response : String)
    (fresh_user_msg_id fresh_ai_msg_id : String) (now : Nat) :
    ChatDb × Except ApiError ChatMessage :=
  match get_conversation db message.conversation_id with
  | none => (db, Except.error ApiError.not_found)
  | some conversation =>
    if conversation.user_id ≠ current_user_id then
      (db, Except.error ApiError.forbidden)
    else
      let after_user := create_message db fresh_user_msg_id now message
      let ai_message : ChatMessageCreate :=
        { conversation_id := message.conversation_id,
          role := MessageRole.assistant, content := llm_response }
      let after_ai := create_message after_user.1 fresh_ai_msg_id now ai_message
      (after_ai.1, Except.ok after_ai.2)

/-! ## Financial data model (`app/models/financial.py`) and repository
(`app/repository/financial_repository.py`) -/

/-- `InvestmentType` (financial.py lines 9-17). -/
inductive InvestmentType
  | stocks
  | bonds
  | etfs
  | mutual_funds
  | real_estate
  | cryptocurrency
  | other
deriving DecidableEq

/-- An `investment_data` document (`Investment`, financial.py lines 59-68);
floats are embedded as rationals and the start date as its ISO string. -/
structure Investment where
  id : String
  user_id : String
  investment_id : Int
  investment_type : InvestmentType
  amount : ℚ
  current_value : ℚ
  start_date : String
deriving DecidableEq

/-- The `InvestmentCreate` request model (financial.py lines 78-86). -/
structure InvestmentCreate where
  user_id : String
  investment_id : Int
  investment_type : InvestmentType
  amount : ℚ
  current_value : ℚ
  start_date : String
deriving DecidableEq

/-- The investments slice of the document store. -/
structure FinancialDb where
  investment_data : List Investment
deriving DecidableEq

/-- `FinancialRepository.create_investment` (lines 98-112): copy the request's
fields onto a new document with a fresh `_id` and insert it. -/
def create_investment (db : FinancialDb) (fresh_id : String)
    (data : InvestmentCreate) : FinancialDb × Investment :=
  let investment : Investment :=
    { id := fresh_id, user_id := data.user_id, investment_id := data.investment_id,
      investment_type := data.investment_type, amount := data.amount,
      current_value := data.current_value, start_date := data.start_date }
  ({ investment_data := db.investment_data ++ [investment] }, investment)

/-- `FinancialRepository.get_investment` (lines 114-122): `None` for an
invalid ObjectId, else `find_one` on `_id`. -/
def get_investment (db : FinancialDb) (investment_id : String) : Option Investment :=
  if !(object_id_valid investment_id) then none
  else db.investment_data.find? (fun i => i.id == investment_id)

/-! ## Numeric rendering

Python's fixed-point formatting of the embedded rationals: `:,.2f` and `:.1f`
round half-to-even at the last kept digit. -/

/-- Round to the nearest integer, ties to the even one. -/
def round_half_even (q : ℚ) : ℤ :=
  let f := ⌊q⌋
  let r := q - (f : ℚ)
  if r < 1/2 then f
  else if 1/2 < r then f + 1
  else if f % 2 = 0 then f else f + 1

/-- Insert thousands separators into a reversed digit list. -/
def group_chars : List Char → List Char
  | a :: b :: c :: d :: rest => a :: b :: c :: ',' :: group_chars (d :: rest)
  | l => l

/-- The comma-grouped decimal digits of a natural number. -/
def group_thousands (n : Nat) : String :=
  String.mk ((group_chars (toString n).data.reverse).reverse)

/-- Python `f"{q:,.2f}"`. -/
def format_money (q : ℚ) : String :=
  let cents := round_half_even (q * 100)
  let sign := if cents < 0 then "-" else ""
  let m := cents.natAbs
  sign ++ group_thousands (m / 100) ++ "."
    ++ (if m % 100 < 10 then "0" else "") ++ toString (m % 100)

/-- Python `f"{q:.1f}"`. -/
def format_one_decimal (q : ℚ) : String :=
  let tenths := round_half_even (q * 10)
  let sign := if tenths < 0 then "-" else ""
  let m := tenths.natAbs
  sign ++ toString (m / 10) ++ "." ++ toString (m % 10)

/-- The numeric value `f"{q:.1f}"` displays. -/
def rendered_one_decimal (q : ℚ) : ℚ :=
  (round_half_even (q * 10) : ℚ) / 10

/-! ## Loosely-typed document fields (`dict.get` over MongoDB documents)

The meta-prompt builder reads MongoDB documents as plain dictionaries.  A
field read with `.get` is `none` when missing; a present value is a number, a
string (which `float()` may or may not parse), `None`, or a list of strings.
-/

inductive PyVal
  | num (q : ℚ)
  | num_str (text : String) (q : ℚ)
  | str (text : String)
  | null
  | str_list (l : List String)
deriving DecidableEq

/-- Python `float(x)` applied to a field read with `.get(key, 0)`: numbers and
numeric strings convert, other strings raise `ValueError`, `None` and lists
raise `TypeError`. -/
def py_float : Option PyVal → Except Unit ℚ
  | none => Except.ok 0
  | some (PyVal.num q) => Except.ok q
  | some (PyVal.num_str _ q) => Except.ok q
  | some (PyVal.str _) => Except.error ()
  | some PyVal.null => Except.error ()
  | some (PyVal.str_list _) => Except.error ()

/-- Python `int(x)` applied to a field read with `.get(key, 0)`: numbers
truncate toward zero, integer-literal strings parse, fractional strings,
other strings, `None` and lists raise. -/
def py_int : Option PyVal → Except Unit ℤ
  | none => Except.ok 0
  | some (PyVal.num q) => Except.ok (q.num / q.den)
  | some (PyVal.num_str _ q) => if q.den = 1 then Except.ok q.num else Except.error ()
  | some (PyVal.str _) => Except.error ()
  | some PyVal.null => Except.error ()
  | some (PyVal.str_list _) => Except.error ()

/-- A display form of a rational (the templates interpolate a few fields with
no format spec; the digits of this form are cosmetic and no theorem depends on
them). -/
def float_repr (q : ℚ) : String :=
  if q.den = 1 then toString q.num ++ ".0"
  else toString q.num ++ "/" ++ toString q.den

/-- The string an f-string interpolates for a field value (display form). -/
def py_render_val : PyVal → String
  | PyVal.num q => float_repr q
  | PyVal.num_str t _ => t
  | PyVal.str t => t
  | PyVal.null => "None"
  | PyVal.str_list l => String.intercalate ", " l

/-- `str(d.get(key, default))` for a rendered-only field. -/
def py_render (default : String) : Option PyVal → String
  | none => default
  | some v => py_render_val v

/-! ## Meta-prompt documents (`app/models/meta_prompt_generator.py`)

One per-user slice of each collection `_gather_user_data` reads, with the
fields the builder touches. -/

structure DemographicDoc where
  name : Option String
  age : Option PyVal
  occupation : Option String
  location : Option String
  annual_income : Option PyVal
  annual_expenses : Option PyVal
  risk_tolerance : Option String
  financial_goals : Option PyVal
deriving DecidableEq

def DemographicDoc.empty : DemographicDoc :=
  ⟨none, none, none, none, none, none, none, none⟩

structure AccountDoc where
  account_type : Option String
  account_balance : Option PyVal
  savings_balance : Option PyVal
deriving DecidableEq

def AccountDoc.empty : AccountDoc := ⟨none, none, none⟩

structure CreditDoc where
  credit_score : Option PyVal
  outstanding_debt : Option PyVal
  credit_utilization : Option PyVal
  payment_history : Option String
  credit_age_years : Option PyVal
deriving DecidableEq

def CreditDoc.empty : CreditDoc := ⟨none, none, none, none, none⟩

structure InvestmentDoc where
  investment_type : Option String
  amount : Option PyVal
  current_value : Option PyVal
deriving DecidableEq

structure TransactionDoc where
  date : Option String
  amount : Option PyVal
  category : Option String
  merchant : Option String
deriving DecidableEq

structure SocialPostDoc where
  topics : Option String
  sentiment : Option String
  post_text : Option String
deriving DecidableEq

/-! ## Template helpers (`app/utils/meta_prompt_templates.py`) -/

/-- `format_financial_goals` (lines 96-101) on an actual list. -/
def format_financial_goals (goals_list : List String) : String :=
  if goals_list.isEmpty then "No specific financial goals provided"
  else String.intercalate ", " goals_list

/-- The `financial_goals` handling of `_generate_user_profile` (lines
236-248): a bare string is wrapped into a one-element list before
`format_financial_goals`; an empty default, `None` and `0` are falsy and give
the no-goals text; any other number reaches `", ".join` and raises
`TypeError`. -/
def goals_wrapped : Option PyVal → Except Unit String
  | none => Except.ok (format_financial_goals [])
  | some (PyVal.str s) => Except.ok (format_financial_goals [s])
  | some (PyVal.num_str s _) => Except.ok (format_financial_goals [s])
  | some (PyVal.str_list l) => Except.ok (format_financial_goals l)
  | some (PyVal.num q) =>
    if q = 0 then Except.ok "No specific financial goals provided" else Except.error ()
  | some PyVal.null => Except.ok "No specific financial goals provided"

/-- `format_financial_goals` on the raw field value, as `generate_meta_prompt`
line 151 calls it (no `isinstance` wrap there): a non-empty string is joined
character by character by `", ".join`. -/
def goals_raw : Option PyVal → Except Unit String
  | none => Except.ok (format_financial_goals [])
  | some (PyVal.str s) =>
    Except.ok (if s.isEmpty then "No specific financial goals provided"
      else String.intercalate ", " (s.data.map Char.toString))
  | some (PyVal.num_str s _) =>
    Except.ok (if s.isEmpty then "No specific financial goals provided"
      else String.intercalate ", " (s.data.map Char.toString))
  | some (PyVal.str_list l) => Except.ok (format_financial_goals l)
  | some (PyVal.num q) =>
    if q = 0 then Except.ok "No specific financial goals provided" else Except.error ()
  | some PyVal.null => Except.ok "No specific financial goals provided"

/-! ### Investment summary (`format_investment_summary`, lines 123-155) -/

/-- `inv.get('investment_type', 'Other')`. -/
def InvestmentDoc.type_key (inv : InvestmentDoc) : String :=
  inv.investment_type.getD "Other"

/-- `sum(float(inv.get(key, 0)) for inv in invs)`: the first malformed value
raises. -/
def sum_float_field (field : InvestmentDoc → Option PyVal) :
    List InvestmentDoc → Except Unit ℚ
  | [] => Except.ok 0
  | inv :: rest =>
    match py_float (field inv), sum_float_field field rest with
    | Except.ok v, Except.ok s => Except.ok (v + s)
    | Except.error e, _ => Except.error e
    | _, Except.error e => Except.error e

def sum_current_values : List InvestmentDoc → Except Unit ℚ :=
  sum_float_field InvestmentDoc.current_value

def sum_amounts : List InvestmentDoc → Except Unit ℚ :=
  sum_float_field InvestmentDoc.amount

/-- Appending one investment to the dict entry of its type (Python dict
semantics: first-occurrence key order, values accumulate in list order). -/
def add_to_group : List (String × List InvestmentDoc) → String → InvestmentDoc →
    List (String × List InvestmentDoc)
  | [], key, inv => [(key, [inv])]
  | (k, l) :: rest, key, inv =>
    if k = key then (k, l ++ [inv]) :: rest
    else (k, l) :: add_to_group rest key inv

/-- The `investments_by_type` dict of lines 132-137. -/
def investments_by_type (invs : List InvestmentDoc) :
    List (String × List InvestmentDoc) :=
  invs.foldl (fun acc inv => add_to_group acc inv.type_key inv) []

/-- The per-type summary lines of lines 141-143.  The division
`type_value / total_value` raises `ZeroDivisionError` when the portfolio's
total current value is zero. -/
def type_summary_lines (total_value : ℚ) :
    List (String × List InvestmentDoc) → Except Unit (List String)
  | [] => Except.ok []
  | g :: rest =>
    match sum_current_values g.2 with
    | Except.error e => Except.error e
    | Except.ok type_value =>
      if total_value = 0 then Except.error ()
      else
        match type_summary_lines total_value rest with
        | Except.error e => Except.error e
        | Except.ok lines =>
          Except.ok ((g.1 ++ ": $" ++ format_money type_value ++ " ("
            ++ format_one_decimal (type_value / total_value * 100) ++ "%)") :: lines)

/-- `format_investment_summary` (lines 123-155). -/
def format_investment_summary (investments : List InvestmentDoc) :
    Except Unit String :=
  if investments.isEmpty then Except.ok "No current investments"
  else
    match sum_current_values investments, sum_amounts investments with
    | Except.ok total_value, Except.ok total_initial =>
      match type_summary_lines total_value (investments_by_type investments) with
      | Except.error e => Except.error e
      | Except.ok lines =>
        let header := "Total Portfolio Value: $" ++ format_money total_value
        let growth :=
          if 0 < total_initial then
            let growth_pct := (total_value - total_initial) / total_initial * 100
            ["Overall Growth: " ++ format_one_decimal growth_pct ++ "%"
              ++ (if 0 ≤ growth_pct then " (positive)" else " (negative)")]
          else []
        Except.ok (String.intercalate "\n" (header :: (lines ++ growth)))
    | Except.error e, _ => Except.error e
    | _, Except.error e => Except.error e

/-- The per-type allocation percentages line 143 computes
(`type_value / total_value * 100`), in first-occurrence order, before
rendering. -/
def exact_type_percentages_from (total_value : ℚ) :
    List (String × List InvestmentDoc) → Except Unit (List ℚ)
  | [] => Except.ok []
  | g :: rest =>
    match sum_current_values g.2 with
    | Except.error e => Except.error e
    | Except.ok type_value =>
      if total_value = 0 then Except.error ()
      else
        match exact_type_percentages_from total_value rest with
        | Except.error e => Except.error e
        | Except.ok ps => Except.ok ((type_value / total_value * 100) :: ps)

def exact_type_percentages (invs : List InvestmentDoc) : Except Unit (List ℚ) :=
  match sum_current_values invs with
  | Except.error e => Except.error e
  | Except.ok total_value =>
    exact_type_percentages_from total_value (investments_by_type invs)

/-- The numeric values the `:.1f` rendering of line 143 actually displays for
those percentages. -/
def rendered_type_percentages (invs : List InvestmentDoc) : Except Unit (List ℚ) :=
  match exact_type_percentages invs with
  | Except.error e => Except.error e
  | Except.ok ps => Except.ok (ps.map rendered_one_decimal)

/-! ### Transactions (`format_transaction_summary`, templates lines 103-121;
`_generate_transaction_context`, generator lines 291-333) -/

/-- One `TRANSACTION_ITEM_TEMPLATE` rendering; `float(txn.get('amount', 0))`
may raise. -/
def transaction_item (t : TransactionDoc) : Except Unit String :=
  match py_float t.amount with
  | Except.error e => Except.error e
  | Except.ok amount =>
    Except.ok ("\nDate: " ++ t.date.getD "Unknown date"
      ++ "\nAmount: $" ++ format_money amount
      ++ "\nCategory: " ++ t.category.getD "Uncategorized"
      ++ "\nMerchant: " ++ t.merchant.getD "Unknown merchant" ++ "\n")

def transaction_items : List TransactionDoc → Except Unit (List String)
  | [] => Except.ok []
  | t :: rest =>
    match transaction_item t, transaction_items rest with
    | Except.ok s, Except.ok l => Except.ok (s :: l)
    | Except.error e, _ => Except.error e
    | _, Except.error e => Except.error e

/-- `format_transaction_summary` with its default `limit=5`. -/
def format_transaction_summary (transactions : List TransactionDoc) :
    Except Unit String :=
  if transactions.isEmpty then Except.ok "No recent transactions"
  else
    match transaction_items (transactions.take 5) with
    | Except.error e => Except.error e
    | Except.ok items =>
      let items :=
        if 5 < transactions.length then
          items ++ ["\n...and " ++ toString (transactions.length - 5) ++ " more transactions"]
        else items
      Except.ok (String.intercalate "\n\n" items)

/-- Each transaction paired with `float(t.get('amount', 0))`. -/
def tx_with_amounts : List TransactionDoc → Except Unit (List (TransactionDoc × ℚ))
  | [] => Except.ok []
  | t :: rest =>
    match py_float t.amount, tx_with_amounts rest with
    | Except.ok a, Except.ok l => Except.ok ((t, a) :: l)
    | Except.error e, _ => Except.error e
    | _, Except.error e => Except.error e

/-- Python `min(l, key=f)`: the first element with minimal key. -/
def first_min_by (f : TransactionDoc × ℚ → ℚ) :
    List (TransactionDoc × ℚ) → Option (TransactionDoc × ℚ)
  | [] => none
  | x :: rest => some (rest.foldl (fun best y => if f y < f best then y else best) x)

/-- One dict-counter bump (`categories[key] += 1` with first-occurrence key
order). -/
def bump_count : List (String × Nat) → String → List (String × Nat)
  | [], key => [(key, 1)]
  | (k, n) :: rest, key =>
    if k = key then (k, n + 1) :: rest
    else (k, n) :: bump_count rest key

def category_counts (transactions : List TransactionDoc) : List (String × Nat) :=
  transactions.foldl (fun acc t => bump_count acc (t.category.getD "Unknown")) []

/-- Python `max(items, key=count)`: the first entry with maximal count. -/
def first_max_count : List (String × Nat) → Option String
  | [] => none
  | x :: rest =>
    some (rest.foldl (fun best y => if best.2 < y.2 then y else best) x).1

def transaction_context_render (recent largest most_frequent unusual : String) :
    String :=
  "\n# RECENT TRANSACTIONS (Last 30 days)\n" ++ recent
    ++ "\n\n## Transaction Insights\nLargest Expense: " ++ largest
    ++ "\nMost Frequent Category: " ++ most_frequent
    ++ "\nUnusual Activity: " ++ unusual ++ "\n"

/-- `_generate_transaction_context` (lines 291-333). -/
def generate_transaction_context (transactions : List TransactionDoc) :
    Except Unit String :=
  if transactions.isEmpty then
    Except.ok "# RECENT TRANSACTIONS\nNo recent transaction data available."
  else
    match tx_with_amounts transactions with
    | Except.error e => Except.error e
    | Except.ok pairs =>
      let expenses := pairs.filter (fun p => p.2 < 0)
      let largest_expense :=
        match first_min_by (fun p => p.2) expenses with
        | none => "None"
        | some p =>
          "$" ++ format_money |p.2| ++ " (" ++ p.1.category.getD "Unknown"
            ++ ", " ++ p.1.merchant.getD "Unknown" ++ ")"
      let most_frequent_category :=
        (first_max_count (category_counts transactions)).getD "None"
      let avg_amount := (pairs.map (fun p => |p.2|)).sum / (transactions.length : ℚ)
      let unusual := pairs.filter (fun p => 2 * avg_amount < |p.2|)
      let unusual_activity :=
        if unusual.isEmpty then "None detected"
        else toString unusual.length ++ " transactions significantly above average spending"
      match format_transaction_summary transactions with
      | Except.error e => Except.error e
      | Except.ok recent =>
        Except.ok (transaction_context_render recent largest_expense
          most_frequent_category unusual_activity)

/-! ### Social media (`format_social_media_insights`, templates lines 157-212;
`_generate_social_media_context`, generator lines 335-346).  This path parses
no numbers, so it is a total function. -/

/-- The topic list of one post: split on commas and strip, when the field is
present and non-empty. -/
def post_topics (p : SocialPostDoc) : List String :=
  match p.topics with
  | none => []
  | some t => if t.isEmpty then [] else (t.splitOn ",").map String.trim

/-- Stable descending insertion by count (Python `sorted(key=count,
reverse=True)` is stable). -/
def insert_desc (x : String × Nat) : List (String × Nat) → List (String × Nat)
  | [] => [x]
  | y :: rest => if y.2 ≤ x.2 then x :: y :: rest else y :: insert_desc x rest

def sort_desc_by_count (l : List (String × Nat)) : List (String × Nat) :=
  l.foldr insert_desc []

def sentiment_key (p : SocialPostDoc) : String :=
  str_lower (p.sentiment.getD "")

def count_sentiment (posts : List SocialPostDoc) (k : String) : Nat :=
  (posts.filter (fun p => sentiment_key p == k)).length

/-- `max(sentiment_counts.items(), key=count)` over the fixed-order dict
`{"positive", "negative", "neutral"}`: the first maximal key wins. -/
def dominant_sentiment (posts : List SocialPostDoc) : String :=
  let p := count_sentiment posts "positive"
  let n := count_sentiment posts "negative"
  let u := count_sentiment posts "neutral"
  if p < n then (if n < u then "neutral" else "negative")
  else (if p < u then "neutral" else "positive")

def financial_keywords : List String :=
  ["invest", "save", "budget", "finance", "money", "loan", "debt", "mortgage",
   "retirement", "stock", "bond", "fund", "bank", "credit", "tax"]

/-- The keyword scan of lines 199-204: first-discovery order, no duplicates. -/
def collect_interests (posts : List SocialPostDoc) : List String :=
  posts.foldl (fun acc p =>
    let text := str_lower (p.post_text.getD "")
    financial_keywords.foldl (fun acc2 kw =>
      if str_has text kw && !(acc2.contains kw) then acc2 ++ [kw] else acc2) acc) []

/-- Python `str.title()` on the dominant-sentiment word(s). -/
def py_title (s : String) : String :=
  String.intercalate " " ((s.splitOn " ").map (fun w =>
    match w.data with
    | [] => ""
    | c :: rest => String.mk (Char.toUpper c :: rest.map Char.toLower)))

/-- `format_social_media_insights` (lines 157-212). -/
def format_social_media_insights (posts : List SocialPostDoc) : String :=
  let topic_counts :=
    ((posts.map post_topics).flatten).foldl (fun acc t => bump_count acc t) []
  let common := ((sort_desc_by_count topic_counts).take 3).map Prod.fst
  let common_str :=
    if common.isEmpty then "None identified" else String.intercalate ", " common
  let dominant := if posts.isEmpty then "No data" else dominant_sentiment posts
  let ratio :=
    if posts.isEmpty then "N/A"
    else toString (count_sentiment posts "positive") ++ "/"
      ++ toString (count_sentiment posts "neutral") ++ "/"
      ++ toString (count_sentiment posts "negative")
  let interests := collect_interests posts
  let interests_str :=
    if interests.isEmpty then "None explicitly mentioned"
    else String.intercalate ", " interests
  "\nPrimary Interest Areas: " ++ common_str
    ++ "\nOverall Sentiment: " ++ py_title dominant
    ++ " (Positive/Neutral/Negative ratio: " ++ ratio ++ ")"
    ++ "\nFinancial Topics: " ++ interests_str ++ "\n"

/-- `_generate_social_media_context` (lines 335-346): the template header with
its three "See below" fields, then the insights. -/
def generate_social_media_context (posts : List SocialPostDoc) : String :=
  if posts.isEmpty then "# SOCIAL MEDIA INSIGHTS\nNo social media data available."
  else
    "\n# SOCIAL MEDIA INSIGHTS\nRecent Topics: See below\nOverall Sentiment: See below\nFinancial Interests: See below\n"
      ++ format_social_media_insights posts

/-! ### Profile, financial context and the full meta-prompt
(`_generate_user_profile` lines 225-251, `_generate_financial_context` lines
253-289, `generate_meta_prompt` lines 115-158,
`_generate_generic_meta_prompt` lines 348-360) -/

/-- `USER_PROFILE_TEMPLATE` rendered. -/
def user_profile_render (name age occupation location : String)
    (annual_income annual_expenses : ℚ) (risk_tolerance financial_goals : String) :
    String :=
  "\n# USER PROFILE INFORMATION\nName: " ++ name
    ++ "\nAge: " ++ age
    ++ "\nOccupation: " ++ occupation
    ++ "\nLocation: " ++ location
    ++ "\nAnnual Income: $" ++ format_money annual_income
    ++ "\nAnnual Expenses: $" ++ format_money annual_expenses
    ++ "\nRisk Tolerance: " ++ risk_tolerance
    ++ "\nFinancial Goals: " ++ financial_goals ++ "\n"

/-- `_generate_user_profile` (lines 225-251): a missing demographics record is
the empty dict; `float()` failures on income/expenses are caught and default
both to 0; the goals formatting is outside that `try` and can raise. -/
def generate_user_profile (demographics : Option DemographicDoc) :
    Except Unit String :=
  let d := demographics.getD DemographicDoc.empty
  let incomes :=
    match py_float d.annual_income, py_float d.annual_expenses with
    | Except.ok income, Except.ok expenses => (income, expenses)
    | _, _ => ((0 : ℚ), (0 : ℚ))
  match goals_wrapped d.financial_goals with
  | Except.error e => Except.error e
  | Except.ok goals =>
    Except.ok (user_profile_render (d.name.getD "User") (py_render "Unknown" d.age)
      (d.occupation.getD "Unknown") (d.location.getD "Unknown")
      incomes.1 incomes.2 (d.risk_tolerance.getD "Moderate") goals)

/-- `FINANCIAL_CONTEXT_TEMPLATE` rendered (total balance is the sum the
`try` block computes, 0 + 0 in the defaulted case). -/
def financial_context_render (account_type : String) (checking savings : ℚ)
    (credit_score : ℤ) (outstanding_debt credit_utilization : ℚ)
    (payment_history credit_age_years investment_summary : String) : String :=
  "\n# FINANCIAL CONTEXT\n## Account Information\nAccount Type: " ++ account_type
    ++ "\nChecking Balance: $" ++ format_money checking
    ++ "\nSavings Balance: $" ++ format_money savings
    ++ "\nTotal Balance: $" ++ format_money (checking + savings)
    ++ "\n\n## Credit Information\nCredit Score: " ++ toString credit_score
    ++ "\nOutstanding Debt: $" ++ format_money outstanding_debt
    ++ "\nCredit Utilization: " ++ float_repr credit_utilization
    ++ "%\nPayment History: " ++ payment_history
    ++ "\nCredit Age: " ++ credit_age_years
    ++ " years\n\n## Investment Portfolio\n" ++ investment_summary ++ "\n"

/-- `_generate_financial_context` (lines 253-289): missing account/credit
records are empty dicts; the numeric conversions run in one `try` whose
`except` zeroes all of them; `format_investment_summary` runs outside it
(line 286), so its exceptions propagate. -/
def generate_financial_context (account : Option AccountDoc)
    (credit : Option CreditDoc) (investments : List InvestmentDoc) :
    Except Unit String :=
  let a := account.getD AccountDoc.empty
  let c := credit.getD CreditDoc.empty
  let nums :=
    match py_float a.account_balance, py_float a.savings_balance,
        py_int c.credit_score, py_float c.outstanding_debt,
        py_float c.credit_utilization with
    | Except.ok checking, Except.ok savings, Except.ok score,
        Except.ok debt, Except.ok util => (checking, savings, score, debt, util)
    | _, _, _, _, _ => ((0 : ℚ), (0 : ℚ), (0 : ℤ), (0 : ℚ), (0 : ℚ))
  match format_investment_summary investments with
  | Except.error e => Except.error e
  | Except.ok investment_summary =>
    Except.ok (financial_context_render (a.account_type.getD "Standard")
      nums.1 nums.2.1 nums.2.2.1 nums.2.2.2.1 nums.2.2.2.2
      (c.payment_history.getD "Unknown") (py_render "0" c.credit_age_years)
      investment_summary)

/-- `FULL_META_PROMPT_TEMPLATE` rendered. -/
def full_meta_prompt_render (name age occupation location user_profile
    financial_context transaction_context social_media_context
    risk_tolerance financial_goals : String) : String :=
  "\nYou are a personalized financial wellness assistant for " ++ name
    ++ ", a " ++ age ++ "-year-old " ++ occupation ++ " based in " ++ location
    ++ ". When providing recommendations and advice, consider the following comprehensive profile:\n\n"
    ++ user_profile ++ "\n\n" ++ financial_context ++ "\n\n"
    ++ transaction_context ++ "\n\n" ++ social_media_context
    ++ "\n\n# YOUR ROLE AS A FINANCIAL ASSISTANT\nAlways maintain a helpful, supportive tone while providing personalized financial advice based on the above information. Tailor your recommendations specifically to "
    ++ name ++ "'s financial situation, goals, and behavioral patterns.\n\nWhen responding:\n1. Address "
    ++ name ++ " directly and personally\n2. Provide advice that aligns with their risk tolerance ("
    ++ risk_tolerance ++ ")\n3. Focus on their stated financial goals: "
    ++ financial_goals
    ++ "\n4. Reference their specific financial situation and recent activity\n5. Make specific, actionable recommendations that match their life circumstances\n6. Explain financial concepts in clear language appropriate for someone with "
    ++ name ++ "'s background\n7. Prioritize long-term financial wellness while addressing immediate concerns\n\nAvoid generic advice that doesn't account for "
    ++ name ++ "'s unique situation.\n"

/-- `_generate_generic_meta_prompt` (lines 348-360): an f-string with no
placeholder, so one constant text. -/
def generic_meta_prompt : String :=
  "\nYou are a personalized financial wellness assistant. Your client's data is limited, so provide general financial advice that is helpful for a wide audience. Your advice should be:\n\n1. Universal and applicable to people in different financial situations\n2. Educational and focused on financial literacy\n3. Balanced between short-term financial management and long-term financial goals\n4. Respectful of different risk tolerances and financial priorities\n5. Clear and jargon-free for accessibility\n\nAvoid making specific assumptions about the user's financial situation, goals, or behaviors without explicit information. When the user provides more details about their situation, incorporate that information into your advice.\n"

/-- The per-user slice of the document store `_gather_user_data` (lines
160-223) reads: one optional record per 1:1 collection, a list per 1:N
collection (only non-empty query results are put into `user_data`, so the
empty dict check below is exactly "everything missing"). -/
structure MetaDb where
  demographic_data : Option DemographicDoc
  account_data : Option AccountDoc
  credit_history : Option CreditDoc
  investment_data : List InvestmentDoc
  transaction_data : List TransactionDoc
  social_media_sentiment : List SocialPostDoc
deriving DecidableEq

/-- `if not user_data` (line 130). -/
def user_data_is_empty (db : MetaDb) : Bool :=
  db.demographic_data.isNone && db.account_data.isNone
    && db.credit_history.isNone && db.investment_data.isEmpty
    && db.transaction_data.isEmpty && db.social_media_sentiment.isEmpty

/-- The body of `generate_meta_prompt`'s `try` block (lines 127-154): gather,
fall back to the generic prompt for an empty `user_data`, render the four
sections, then the full template (whose `name` default is the user id and
whose goals call is the unwrapped `format_financial_goals`). -/
def generate_meta_prompt_body (db : MetaDb) (user_id : String) :
    Except Unit String :=
  if user_data_is_empty db then Except.ok generic_meta_prompt
  else
    match generate_user_profile db.demographic_data with
    | Except.error e => Except.error e
    | Except.ok user_profile =>
      match generate_financial_context db.account_data db.credit_history
          db.investment_data with
      | Except.error e => Except.error e
      | Except.ok financial_context =>
        match generate_transaction_context db.transaction_data with
        | Except.error e => Except.error e
        | Except.ok transaction_context =>
          let social := generate_social_media_context db.social_media_sentiment
          let d := db.demographic_data.getD DemographicDoc.empty
          match goals_raw d.financial_goals with
          | Except.error e => Except.error e
          | Except.ok goals_text =>
            Except.ok (full_meta_prompt_render (d.name.getD user_id)
              (py_render "unknown age" d.age) (d.occupation.getD "professional")
              (d.location.getD "unknown location") user_profile financial_context
              transaction_context social (d.risk_tolerance.getD "Moderate")
              goals_text)

/-- `MetaPromptGenerator.generate_meta_prompt` (lines 115-158): the whole body
runs inside `try`, and any exception is logged and replaced by the generic
meta-prompt (lines 156-158), so the call itself never raises. -/
def generate_meta_prompt (db : MetaDb) (user_id : String) : Except Unit String :=
  match generate_meta_prompt_body db user_id with
  | Except.ok s => Except.ok s
  | Except.error _ => Except.ok generic_meta_prompt

/-- Proof-side helper: the summed current value of a list of type-groups
(what the `investments_by_type` dict's values add up to). -/
def groups_total : List (String × List InvestmentDoc) → Except Unit ℚ
  | [] => Except.ok 0
  | g :: rest =>
    match sum_current_values g.2, groups_total rest with
    | Except.ok v, Except.ok s => Except.ok (v + s)
    | Except.error e, _ => Except.error e
    | _, Except.error e => Except.error e

/-! ## Concrete fixtures used by witnesses and counterexamples -/

/-- `LLMService.__init__` finds no configured key: each probe of the `if/elif`
chain fails. -/
def no_api_keys (s : LLMSettings) : Prop :=
  key_configured s.google_api_key "your-google-api-key" = false
  ∧ key_configured s.mistral_api_key "your-mistral-api-key" = false
  ∧ key_configured s.huggingface_token "your-huggingface-token" = false
  ∧ key_configured s.openai_api_key "your-openai-api-key" = false

/-- A transient failure: the live call raises on the first attempt and would
succeed on any later one. -/
def transient_api : Nat → ApiOutcome := fun attempt =>
  if attempt = 0 then ApiOutcome.raised else ApiOutcome.ok "All good after one retry."

def hello_messages : List ChatMsg :=
  [{ role := "user", content := "hello" }]

def invest_messages : List ChatMsg :=
  [{ role := "user", content := "Should I invest in index funds?" }]

def settings_without_keys : LLMSettings :=
  { google_api_key := none, mistral_api_key := none,
    huggingface_token := none, openai_api_key := none }

def oid_conv : String := "507f1f77bcf86cd799439011"

def oid_msg1 : String := "6401111111111111111111aa"

def oid_msg2 : String := "6401111111111111111111ab"

def conversation_alice : Conversation :=
  { id := oid_conv, user_id := "alice", title := "Investing",
    updated_at := 0, is_active := true }

def chat_db_alice : ChatDb :=
  { conversations := [conversation_alice], chat_messages := [] }

/-- A request body whose client-chosen role is `assistant`: pydantic accepts
it, and `send_message` persists it verbatim. -/
def planted_assistant_post : ChatMessageCreate :=
  { conversation_id := oid_conv, role := MessageRole.assistant,
    content := "Planted assistant message" }

def user_post : ChatMessageCreate :=
  { conversation_id := oid_conv, role := MessageRole.user,
    content := "How should I budget?" }

def sample_investment_create : InvestmentCreate :=
  { user_id := "alice", investment_id := 1,
    investment_type := InvestmentType.stocks, amount := 1000,
    current_value := 1100, start_date := "2024-01-01" }

/-- Five investment records of five distinct types whose current values are
2006, 2006, 2006, 2006 and 1976 (total 10000): the exact allocation
percentages are 20.06 (four times) and 19.76. -/
def c2_investments : List InvestmentDoc :=
  [ { investment_type := some "stocks", amount := some (PyVal.num 2006),
      current_value := some (PyVal.num 2006) },
    { investment_type := some "bonds", amount := some (PyVal.num 2006),
      current_value := some (PyVal.num 2006) },
    { investment_type := some "etfs", amount := some (PyVal.num 2006),
      current_value := some (PyVal.num 2006) },
    { investment_type := some "mutual_funds", amount := some (PyVal.num 2006),
      current_value := some (PyVal.num 2006) },
    { investment_type := some "real_estate", amount := some (PyVal.num 1976),
      current_value := some (PyVal.num 1976) } ]

/-! ## Helper lemmas -/

theorem string_append_ne_empty_left (a b : String) (ha : a ≠ "") : a ++ b ≠ "" := by
  obtain ⟨la⟩ := a
  obtain ⟨lb⟩ := b
  intro h
  apply ha
  have hd : la ++ lb = ([] : List Char) := congrArg String.data h
  have hla : la = [] := (List.append_eq_nil.mp hd).1
  rw [hla]

theorem find_append_singleton {α : Type} (p : α → Bool) (l : List α) (x : α)
    (h : ∀ y ∈ l, p y = false) (hx : p x = true) :
    (l ++ [x]).find? p = some x := by
  induction l with
  | nil => simp [List.find?, hx]
  | cons a t ih =>
    have ha := h a (by simp)
    simp only [List.cons_append, List.find?, ha]
    exact ih (fun y hy => h y (by simp [hy]))

/-! ## C9 -/

/-- C9: for every string that is not a valid ObjectId, `get_conversation`,
`get_message` and `get_investment` return `None` rather than raising, and the
public conversation endpoint answers 404, never an unhandled exception. -/
theorem C9_invalid_object_id_returns_none
    (chat_db : ChatDb) (fin_db : FinancialDb) (user bad_id : String)
    (hbad : object_id_valid bad_id = false) :
    get_conversation chat_db bad_id = none
    ∧ get_message chat_db bad_id = none
    ∧ get_investment fin_db bad_id = none
    ∧ get_conversation_endpoint chat_db user bad_id = Except.error ApiError.not_found
    ∧ ApiError.status_code ApiError.not_found = 404 := by
  refine ⟨?_, ?_, ?_, ?_, rfl⟩ <;>
    simp [get_conversation, get_message, get_investment, get_conversation_endpoint, hbad]

/-- C9 witness: the malformed id `"not-an-objectid"` at an empty store. -/
theorem C9_invalid_object_id_returns_none_witness :
    get_conversation { conversations := [], chat_messages := [] } "not-an-objectid" = none
    ∧ get_message { conversations := [], chat_messages := [] } "not-an-objectid" = none
    ∧ get_investment { investment_data := [] } "not-an-objectid" = none
    ∧ get_conversation_endpoint { conversations := [], chat_messages := [] } "alice"
        "not-an-objectid" = Except.error ApiError.not_found
    ∧ ApiError.status_code ApiError.not_found = 404 :=
  C9_invalid_object_id_returns_none { conversations := [], chat_messages := [] }
    { investment_data := [] } "alice" "not-an-objectid" (by decide)

/-! ## C3 -/

/-- C3: a `send_message` request naming an existing conversation owned by a
different user fails with 403, and the conversation's message list (indeed the
whole store) is exactly as before the request. -/
theorem C3_foreign_conversation_403_no_mutation
    (db : ChatDb) (caller : String) (message : ChatMessageCreate)
    (llm_response id1 id2 : String) (now : Nat) (conversation : Conversation)
    (hfound : get_conversation db message.conversation_id = some conversation)
    (hforeign : conversation.user_id ≠ caller) :
    send_message db caller message llm_response id1 id2 now
      = (db, Except.error ApiError.forbidden)
    ∧ ApiError.status_code ApiError.forbidden = 403
    ∧ conversation_messages (send_message db caller message llm_response id1 id2 now).1
        message.conversation_id
      = conversation_messages db message.conversation_id := by
  have h : send_message db caller message llm_response id1 id2 now
      = (db, Except.error ApiError.forbidden) := by
    simp [send_message, hfound, hforeign]
  exact ⟨h, rfl, by rw [h]⟩

/-- C3 witness: Mallory posts to Alice's conversation. -/
theorem C3_foreign_conversation_403_no_mutation_witness :
    send_message chat_db_alice "mallory" user_post "reply" oid_msg1 oid_msg2 7
      = (chat_db_alice, Except.error ApiError.forbidden)
    ∧ ApiError.status_code ApiError.forbidden = 403
    ∧ conversation_messages
        (send_message chat_db_alice "mallory" user_post "reply" oid_msg1 oid_msg2 7).1
        user_post.conversation_id
      = conversation_messages chat_db_alice user_post.conversation_id :=
  C3_foreign_conversation_403_no_mutation chat_db_alice "mallory" user_post
    "reply" oid_msg1 oid_msg2 7 conversation_alice (by decide) (by decide)

/-! ## C8 -/

/-- C8: a created investment, fetched back by its id, is the very record with
the request's amount, current value and type (the id minted for it is fresh
and valid, which MongoDB's `ObjectId()` guarantees). -/
theorem C8_create_then_get_round_trip
    (db : FinancialDb) (data : InvestmentCreate) (fresh_id : String)
    (hvalid : object_id_valid fresh_id = true)
    (hfresh : ∀ i ∈ db.investment_data, i.id ≠ fresh_id) :
    get_investment (create_investment db fresh_id data).1 fresh_id
      = some (create_investment db fresh_id data).2
    ∧ (create_investment db fresh_id data).2.amount = data.amount
    ∧ (create_investment db fresh_id data).2.current_value = data.current_value
    ∧ (create_investment db fresh_id data).2.investment_type = data.investment_type := by
  refine ⟨?_, rfl, rfl, rfl⟩
  simp only [get_investment, create_investment, hvalid, Bool.not_true, if_false,
    Bool.false_eq_true, ite_false]
  exact find_append_singleton _ _ _
    (fun y hy => by simpa using hfresh y hy) (by simp)

/-- C8 witness: one concrete investment created against an empty store. -/
theorem C8_create_then_get_round_trip_witness :
    get_investment (create_investment { investment_data := [] } oid_msg1
        sample_investment_create).1 oid_msg1
      = some (create_investment { investment_data := [] } oid_msg1
          sample_investment_create).2
    ∧ (create_investment { investment_data := [] } oid_msg1
        sample_investment_create).2.amount = sample_investment_create.amount
    ∧ (create_investment { investment_data := [] } oid_msg1
        sample_investment_create).2.current_value = sample_investment_create.current_value
    ∧ (create_investment { investment_data := [] } oid_msg1
        sample_investment_create).2.investment_type = sample_investment_create.investment_type :=
  C8_create_then_get_round_trip { investment_data := [] } sample_investment_create
    oid_msg1 (by decide) (by simp)

/-! ## C1 -/

/-- C1: whenever the configured live provider's call raises, the decorated
`generate_response` returns the keyword-matched mock response instead of
propagating the exception, so an upstream LLM failure is never surfaced as an
error to the chat caller. -/
theorem C1_provider_exception_falls_back_to_mock
    (provider : String) (messages : List ChatMsg) (api : Nat → ApiOutcome)
    (hlive : provider ∈ live_providers) (hraised : api 0 = ApiOutcome.raised) :
    (generate_response provider messages api).1
      = Except.ok (generate_mock_response messages) := by
  have hmock : ¬(provider = "mock") := by
    intro h
    rw [h] at hlive
    simp [live_providers] at hlive
  simp [generate_response, retry_stop_attempts, run_with_retry,
    generate_response_body, hraised, hmock, hlive]

/-- C1 witness: the Google provider raising on its call. -/
theorem C1_provider_exception_falls_back_to_mock_witness :
    (generate_response "google" hello_messages (fun _ => ApiOutcome.raised)).1
      = Except.ok (generate_mock_response hello_messages) :=
  C1_provider_exception_falls_back_to_mock "google" hello_messages
    (fun _ => ApiOutcome.raised) (by decide) rfl

/-! ## C5 -/

/-- C5 counterexample: a transient failure (the live call raises on attempt 0
and would succeed on attempt 1).  `generate_response` makes exactly one live
call and answers with the mock fallback at once — it does not retry before
falling back, although the claimed second attempt would have returned
"All good after one retry.". -/
theorem C5_counterexample_no_retry_before_fallback :
    generate_response "mistral" hello_messages transient_api
      = (Except.ok (generate_mock_response hello_messages), 1)
    ∧ transient_api 1 = ApiOutcome.ok "All good after one retry."
    ∧ generate_mock_response hello_messages ≠ "All good after one retry." :=
  ⟨rfl, rfl, by decide⟩

theorem generate_response_body_shape
    (p : String) (msgs : List ChatMsg) (o : ApiOutcome) :
    ∃ s c, generate_response_body p msgs o = (Except.ok s, c) ∧ c ≤ 1 := by
  unfold generate_response_body
  split
  · exact ⟨_, _, rfl, by norm_num⟩
  · split
    · cases o with
      | ok text => exact ⟨_, _, rfl, by norm_num⟩
      | raised => exact ⟨_, _, rfl, by norm_num⟩
    · exact ⟨_, _, rfl, by norm_num⟩

/-- C5 amended: `generate_response` carries tenacity's
`retry(stop_after_attempt(3), wait_exponential(min=2, max=10))`, but its body
catches every exception and converts it to the mock fallback, so the wrapped
function never raises and the retry loop always stops after the first
attempt: the live HTTP call happens at most once per invocation and any
failure falls back immediately, with no retry before the fallback. -/
theorem C5_amended_single_attempt_no_retry
    (provider : String) (messages : List ChatMsg) (api : Nat → ApiOutcome) :
    generate_response provider messages api
      = generate_response_body provider messages (api 0)
    ∧ (generate_response provider messages api).2 ≤ 1 := by
  obtain ⟨s, c, hb, hc⟩ := generate_response_body_shape provider messages (api 0)
  have hrun : generate_response provider messages api = (Except.ok s, c) := by
    simp [generate_response, retry_stop_attempts, run_with_retry, hb]
  exact ⟨by rw [hrun, hb], by rw [hrun]; exact hc⟩

/-! ## C10 -/

/-- C10: the mock generator is a pure function of the (lower-cased) content of
the last message: any two message lists whose last messages have the same
content get the identical response, whatever the other messages, the roles or
any external state. -/
theorem C10_mock_response_depends_only_on_last_content
    (m1 m2 : List ChatMsg) (a b : ChatMsg)
    (h1 : m1.getLast? = some a) (h2 : m2.getLast? = some b)
    (hcontent : a.content = b.content) :
    generate_mock_response m1 = generate_mock_response m2 := by
  simp [generate_mock_response, h1, h2, hcontent]

/-- C10 witness: two different conversations with the same final content. -/
theorem C10_mock_response_depends_only_on_last_content_witness :
    generate_mock_response [{ role := "user", content := "Budget tips?" }]
      = generate_mock_response
        [{ role := "system", content := "You are an advisor." },
         { role := "assistant", content := "Budget tips?" }] :=
  C10_mock_response_depends_only_on_last_content _ _
    { role := "user", content := "Budget tips?" }
    { role := "assistant", content := "Budget tips?" }
    rfl rfl rfl

/-! ## C7 -/

theorem chars_pre_map (f : Char → Char) :
    ∀ pat s, chars_pre pat s = true → chars_pre (pat.map f) (s.map f) = true := by
  intro pat
  induction pat with
  | nil => intro s _; simp [chars_pre]
  | cons a pat ih =>
    intro s h
    cases s with
    | nil => simp [chars_pre] at h
    | cons b s =>
      simp only [chars_pre, Bool.and_eq_true, beq_iff_eq] at h
      obtain ⟨hab, hrest⟩ := h
      simp only [List.map_cons, chars_pre, Bool.and_eq_true, beq_iff_eq]
      exact ⟨by rw [hab], ih s hrest⟩

theorem chars_has_map (f : Char → Char) (pat : List Char) :
    ∀ s, chars_has pat s = true → chars_has (pat.map f) (s.map f) = true := by
  intro s
  induction s with
  | nil =>
    intro h
    simp only [chars_has, List.isEmpty_eq_true] at h
    simp [h, chars_has]
  | cons b s ih =>
    intro h
    simp only [chars_has, Bool.or_eq_true] at h
    rcases h with h | h
    · have := chars_pre_map f pat (b :: s) h
      simp only [List.map_cons] at this
      simp [chars_has, this]
    · simp [chars_has, ih h]

/-- Lower-casing the text preserves an occurrence of a pattern that
lower-casing fixes. -/
theorem str_has_lower_of_str_has (s pat : String)
    (hfix : pat.data.map Char.toLower = pat.data)
    (h : str_has s pat = true) : str_has (str_lower s) pat = true := by
  unfold str_has at h ⊢
  unfold str_lower
  rw [show (String.mk (s.data.map Char.toLower)).data = s.data.map Char.toLower from rfl,
    ← hfix]
  exact chars_has_map Char.toLower pat.data s.data h

theorem generate_mock_response_mem_table (messages : List ChatMsg) :
    generate_mock_response messages ∈ mock_response_table := by
  unfold generate_mock_response
  cases messages.getLast? with
  | none => simp [mock_response_table]
  | some m =>
    simp only []
    split_ifs <;> simp [mock_response_table]

/-- C7: with no API key configured the selected provider is `"mock"`, and
`generate_response` returns, for every message list, a non-empty string drawn
from the keyword-response table; when the last message contains "invest" the
answer is the diversification response, which contains "diversify". -/
theorem C7_no_keys_mock_nonempty_keyword
    (s : LLMSettings) (messages : List ChatMsg) (api : Nat → ApiOutcome)
    (hno : no_api_keys s) :
    select_provider s = "mock"
    ∧ (generate_response (select_provider s) messages api).1
        = Except.ok (generate_mock_response messages)
    ∧ generate_mock_response messages ≠ ""
    ∧ generate_mock_response messages ∈ mock_response_table
    ∧ (∀ m, messages.getLast? = some m → str_has m.content "invest" = true →
        str_has (generate_mock_response messages) "diversify" = true) := by
  obtain ⟨h1, h2, h3, h4⟩ := hno
  have hsel : select_provider s = "mock" := by
    simp [select_provider, h1, h2, h3, h4]
  refine ⟨hsel, ?_, ?_, generate_mock_response_mem_table messages, ?_⟩
  · rw [hsel]
    simp [generate_response, retry_stop_attempts, run_with_retry,
      generate_response_body]
  · have := generate_mock_response_mem_table messages
    simp only [mock_response_table, List.mem_cons, List.not_mem_nil, or_false] at this
    rcases this with h | h | h | h | h | h | h <;> rw [h] <;> decide
  · intro m hm hinv
    have hlow : str_has (str_lower m.content) "invest" = true :=
      str_has_lower_of_str_has m.content "invest" (by decide) hinv
    simp [generate_mock_response, hm, hlow]
    decide

/-- C7 witness: no keys, last message "Should I invest in index funds?". -/
theorem C7_no_keys_mock_nonempty_keyword_witness :
    select_provider settings_without_keys = "mock"
    ∧ (generate_response (select_provider settings_without_keys) invest_messages
        (fun _ => ApiOutcome.raised)).1
      = Except.ok (generate_mock_response invest_messages)
    ∧ generate_mock_response invest_messages ≠ ""
    ∧ generate_mock_response invest_messages ∈ mock_response_table
    ∧ (∀ m, invest_messages.getLast? = some m → str_has m.content "invest" = true →
        str_has (generate_mock_response invest_messages) "diversify" = true) :=
  C7_no_keys_mock_nonempty_keyword settings_without_keys invest_messages
    (fun _ => ApiOutcome.raised) ⟨rfl, rfl, rfl, rfl⟩

/-! ## C4 -/

theorem is_assistant_false_of_ne {r : MessageRole}
    (h : r ≠ MessageRole.assistant) : r.is_assistant = false := by
  cases r with
  | assistant => exact absurd rfl h
  | user => rfl
  | system => rfl

/-- C4 counterexample: `send_message` persists the client-chosen role
verbatim, so a request whose own role is `assistant` appends two
assistant-role messages to the conversation (the posted one and the
generated reply), not exactly one. -/
theorem C4_counterexample_assistant_role_appends_two :
    assistant_message_count
      (send_message chat_db_alice "alice" planted_assistant_post "AI reply"
        oid_msg1 oid_msg2 5).1 oid_conv = 2
    ∧ assistant_message_count chat_db_alice oid_conv = 0 := by
  constructor <;> decide

/-- C4 amended: for every `send_message` call on an existing conversation
owned by the caller whose posted message is not itself assistant-role (the
normal user-role chat request), exactly one assistant message is appended —
the LLM-success and the degraded-fallback reply alike arrive through the one
`create_message` call covered by `llm_response` — never zero and never two. -/
theorem C4_amended_exactly_one_assistant_appended
    (db : ChatDb) (caller : String) (message : ChatMessageCreate)
    (llm_response id1 id2 : String) (now : Nat) (conversation : Conversation)
    (hfound : get_conversation db message.conversation_id = some conversation)
    (howner : conversation.user_id = caller)
    (hrole : message.role ≠ MessageRole.assistant) :
    assistant_message_count
      (send_message db caller message llm_response id1 id2 now).1
      message.conversation_id
    = assistant_message_count db message.conversation_id + 1 := by
  simp only [send_message, hfound, howner, ne_eq, not_true_eq_false, if_false,
    Bool.false_eq_true, ite_false]
  simp [assistant_message_count, create_message, List.filter_append,
    is_assistant_false_of_ne hrole, MessageRole.is_assistant]

/-- C4 witness: a user-role request against the owner's conversation. -/
theorem C4_amended_exactly_one_assistant_appended_witness :
    assistant_message_count
      (send_message chat_db_alice "alice" user_post "Here is a budget plan."
        oid_msg1 oid_msg2 5).1 user_post.conversation_id
    = assistant_message_count chat_db_alice user_post.conversation_id + 1 :=
  C4_amended_exactly_one_assistant_appended chat_db_alice "alice" user_post
    "Here is a budget plan." oid_msg1 oid_msg2 5 conversation_alice
    (by decide) rfl (by decide)

/-! ## C6 -/

theorem full_meta_prompt_render_ne_empty
    (name age occupation location user_profile financial_context
      transaction_context social_media_context risk_tolerance
      financial_goals : String) :
    full_meta_prompt_render name age occupation location user_profile
      financial_context transaction_context social_media_context
      risk_tolerance financial_goals ≠ "" := by
  unfold full_meta_prompt_render
  repeat apply string_append_ne_empty_left
  decide

theorem meta_prompt_body_ok_ne_empty (db : MetaDb) (user_id s : String)
    (h : generate_meta_prompt_body db user_id = Except.ok s) : s ≠ "" := by
  unfold generate_meta_prompt_body at h
  split at h
  · injection h with h'
    rw [← h']
    decide
  · split at h
    · exact absurd h (by simp)
    · split at h
      · exact absurd h (by simp)
      · split at h
        · exact absurd h (by simp)
        · dsimp only at h
          split at h
          · exact absurd h (by simp)
          · injection h with h'
            rw [← h']
            apply full_meta_prompt_render_ne_empty

/-- C6: for every user and every state of the six per-user collections —
missing records, malformed or missing numeric fields included —
`generate_meta_prompt` returns a (non-empty) string and never raises: its
whole body runs inside `try`, missing fields degrade to the templates'
zero/"Unknown" defaults, and any exception that does escape a section is
replaced by the generic fallback prompt; in particular a user with no data at
all gets exactly the generic prompt. -/
theorem C6_generate_meta_prompt_never_raises (db : MetaDb) (user_id : String) :
    (∃ s, generate_meta_prompt db user_id = Except.ok s ∧ s ≠ "")
    ∧ (user_data_is_empty db = true →
        generate_meta_prompt db user_id = Except.ok generic_meta_prompt) := by
  constructor
  · unfold generate_meta_prompt
    cases hbody : generate_meta_prompt_body db user_id with
    | error e => exact ⟨generic_meta_prompt, rfl, by decide⟩
    | ok s => exact ⟨s, rfl, meta_prompt_body_ok_ne_empty db user_id s hbody⟩
  · intro hempty
    unfold generate_meta_prompt generate_meta_prompt_body
    simp [hempty]

/-! ## C2 -/

theorem sum_current_values_append_singleton (l : List InvestmentDoc)
    (inv : InvestmentDoc) :
    sum_current_values (l ++ [inv])
      = match sum_current_values l, py_float inv.current_value with
        | Except.ok s, Except.ok v => Except.ok (s + v)
        | Except.error e, _ => Except.error e
        | _, Except.error e => Except.error e := by
  induction l with
  | nil =>
    simp only [List.nil_append, sum_current_values, sum_float_field]
    cases py_float inv.current_value <;> simp
  | cons a t ih =>
    simp only [List.cons_append, sum_current_values, sum_float_field,
      List.append_eq] at ih ⊢
    rw [ih]
    cases py_float a.current_value <;> cases sum_float_field InvestmentDoc.current_value t
      <;> cases py_float inv.current_value <;> simp [add_assoc]

theorem groups_total_add_to_group (acc : List (String × List InvestmentDoc))
    (k : String) (inv : InvestmentDoc) :
    groups_total (add_to_group acc k inv)
      = match groups_total acc, py_float inv.current_value with
        | Except.ok s, Except.ok v => Except.ok (s + v)
        | Except.error e, _ => Except.error e
        | _, Except.error e => Except.error e := by
  induction acc with
  | nil =>
    simp only [add_to_group, groups_total, sum_current_values, sum_float_field]
    cases py_float inv.current_value <;> simp
  | cons g rest ih =>
    by_cases hk : g.1 = k
    · simp only [add_to_group, hk, if_true, groups_total,
        sum_current_values_append_singleton]
      cases sum_current_values g.2 <;> cases py_float inv.current_value
        <;> cases groups_total rest <;> simp [add_right_comm]
    · simp only [add_to_group, hk, if_false, groups_total, ih]
      cases sum_current_values g.2 <;> cases py_float inv.current_value
        <;> cases groups_total rest <;> simp [add_assoc]

theorem groups_total_foldl (invs : List InvestmentDoc) :
    ∀ acc, groups_total (invs.foldl (fun acc i => add_to_group acc i.type_key i) acc)
      = match groups_total acc, sum_current_values invs with
        | Except.ok s, Except.ok v => Except.ok (s + v)
        | Except.error e, _ => Except.error e
        | _, Except.error e => Except.error e := by
  induction invs with
  | nil =>
    intro acc
    simp only [List.foldl_nil, sum_current_values, sum_float_field]
    cases groups_total acc <;> simp
  | cons i t ih =>
    intro acc
    simp only [List.foldl_cons]
    rw [ih, groups_total_add_to_group]
    simp only [sum_current_values, sum_float_field]
    cases groups_total acc <;> cases py_float i.current_value
      <;> cases sum_float_field InvestmentDoc.current_value t <;> simp [add_assoc]

theorem groups_total_investments_by_type (invs : List InvestmentDoc) :
    groups_total (investments_by_type invs) = sum_current_values invs := by
  rw [investments_by_type, groups_total_foldl]
  cases sum_current_values invs <;> simp [groups_total]

theorem exact_percentages_sum (T : ℚ) (hT : T ≠ 0) :
    ∀ (gs : List (String × List InvestmentDoc)) (S : ℚ),
      groups_total gs = Except.ok S →
      ∃ ps, exact_type_percentages_from T gs = Except.ok ps ∧ ps.sum = S / T * 100 := by
  intro gs
  induction gs with
  | nil =>
    intro S h
    simp only [groups_total] at h
    injection h with h'
    exact ⟨[], by simp [exact_type_percentages_from], by simp [← h']⟩
  | cons g rest ih =>
    intro S h
    simp only [groups_total] at h
    cases hv : sum_current_values g.2 with
    | error e => rw [hv] at h; simp at h
    | ok v =>
      cases hs : groups_total rest with
      | error e => rw [hv, hs] at h; simp at h
      | ok s =>
        rw [hv, hs] at h
        injection h with h'
        obtain ⟨ps, hps, hsum⟩ := ih s hs
        refine ⟨(v / T * 100) :: ps, ?_, ?_⟩
        · simp [exact_type_percentages_from, hv, hT, hps]
        · rw [List.sum_cons, hsum, ← h']
          ring

/-- C2 amended: for zero investment records `format_investment_summary`
returns exactly "No current investments"; for at least one record and a
non-zero summed current value, the per-type allocation percentages the
function computes (before the one-decimal rendering) sum to exactly 100.
(The rendered one-decimal figures can each be off by up to 0.05, so their sum
can leave the ±0.1 band — see the counterexample — and a zero total current
value makes line 143 raise `ZeroDivisionError` instead of rendering.) -/
theorem C2_amended_exact_percentages_sum_100 :
    format_investment_summary [] = Except.ok "No current investments"
    ∧ ∀ (invs : List InvestmentDoc) (total : ℚ),
        sum_current_values invs = Except.ok total → total ≠ 0 →
        ∃ ps, exact_type_percentages invs = Except.ok ps ∧ ps.sum = 100 := by
  constructor
  · rfl
  · intro invs total htot hne
    have hg : groups_total (investments_by_type invs) = Except.ok total := by
      rw [groups_total_investments_by_type, htot]
    obtain ⟨ps, hps, hsum⟩ :=
      exact_percentages_sum total hne (investments_by_type invs) total hg
    refine ⟨ps, ?_, ?_⟩
    · unfold exact_type_percentages
      rw [htot]
      exact hps
    · rw [hsum, div_self hne, one_mul]

/-- C2 counterexample: for the five-type portfolio `c2_investments` (current
values 2006, 2006, 2006, 2006, 1976) the one-decimal percentages the summary
renders are 20.1, 20.1, 20.1, 20.1 and 19.8, which sum to 100.2 — outside the
claimed ±0.1 band around 100. -/
theorem C2_counterexample_rendered_sum_exceeds_band :
    ∃ ps, rendered_type_percentages c2_investments = Except.ok ps
      ∧ ¬(|ps.sum - 100| ≤ 1/10) := by
  have h1 : sum_current_values c2_investments = Except.ok 10000 := by
    simp only [c2_investments, sum_current_values, sum_float_field, py_float]
    norm_num
  have hgroups : investments_by_type c2_investments
      = [("stocks",
          [{ investment_type := some "stocks", amount := some (PyVal.num 2006),
             current_value := some (PyVal.num 2006) }]),
         ("bonds",
          [{ investment_type := some "bonds", amount := some (PyVal.num 2006),
             current_value := some (PyVal.num 2006) }]),
         ("etfs",
          [{ investment_type := some "etfs", amount := some (PyVal.num 2006),
             current_value := some (PyVal.num 2006) }]),
         ("mutual_funds",
          [{ investment_type := some "mutual_funds", amount := some (PyVal.num 2006),
             current_value := some (PyVal.num 2006) }]),
         ("real_estate",
          [{ investment_type := some "real_estate", amount := some (PyVal.num 1976),
             current_value := some (PyVal.num 1976) }])] := by
    simp [investments_by_type, c2_investments, add_to_group, InvestmentDoc.type_key]
  have h10 : ¬((10000 : ℚ) = 0) := by norm_num
  have hexact : exact_type_percentages c2_investments
      = Except.ok [1003/50, 1003/50, 1003/50, 1003/50, 494/25] := by
    unfold exact_type_percentages
    rw [h1, hgroups]
    simp only [exact_type_percentages_from, sum_current_values, sum_float_field,
      py_float, h10, if_false]
    norm_num
  have hr1 : rendered_one_decimal (1003/50) = 201/10 := by
    norm_num [rendered_one_decimal, round_half_even]
  have hr2 : rendered_one_decimal (494/25) = 99/5 := by
    norm_num [rendered_one_decimal, round_half_even]
  refine ⟨[201/10, 201/10, 201/10, 201/10, 99/5], ?_, ?_⟩
  · unfold rendered_type_percentages
    rw [hexact]
    simp [hr1, hr2]
  · norm_num [List.sum_cons, List.sum_nil, abs_le]
